import Mathlib

/-!
Verification development for the quiche-server UDP dispatch loop
(`tools/apps/src/bin/quiche-server.rs`): a shallow embedding of the address
validator (retry token mint/validate), the packet demultiplexer's bootstrap
decisions, the per-connection client record and application-protocol
selection, the non-GSO burst write phase, the reactor timeout computation and
the garbage-collection pass, together with theorems about them.
-/

namespace QuicheServer

/-- An IP address, carried by its fixed-width octet encoding
(`std::net::IpAddr`): 4 octets for IPv4, 16 octets for IPv6. -/
inductive IpAddr where
  | v4 : Nat → Nat → Nat → Nat → IpAddr
  | v6 : Nat → Nat → Nat → Nat → Nat → Nat → Nat → Nat →
         Nat → Nat → Nat → Nat → Nat → Nat → Nat → Nat → IpAddr
  deriving DecidableEq, Repr

/-- The octet encoding of an IP address (`Ipv4Addr::octets` /
`Ipv6Addr::octets`, each converted `to_vec`). -/
def IpAddr.octets : IpAddr → List Nat
  | .v4 a b c d => [a, b, c, d]
  | .v6 a b c d e f g h i j k l m n o p =>
      [a, b, c, d, e, f, g, h, i, j, k, l, m, n, o, p]

/-- `std::net::SocketAddr`: an IP address together with a port. -/
structure SocketAddr where
  ip : IpAddr
  port : Nat
  deriving DecidableEq, Repr

/-- The constant marker `b"quiche"` prepended to every retry token
(ASCII octets of the string `quiche`). -/
def quicheMarker : List Nat := [113, 117, 105, 99, 104, 101]

/-- `mint_token`: the retry token is the constant marker, followed by the raw
octets of the client's IP address, followed by the packet's destination
connection ID (`hdr.dcid`). The port of `src` is not used. -/
def mint_token (dcid : List Nat) (src : SocketAddr) : List Nat :=
  quicheMarker ++ src.ip.octets ++ dcid

/-- `validate_token`: checks the marker and the embedded address octets
against `src`, and returns the remaining suffix as the original destination
CID; returns `none` (the no-match sentinel) on any mismatch. -/
def validate_token (src : SocketAddr) (token : List Nat) : Option (List Nat) :=
  if token.length < 6 then none
  else if token.take 6 ≠ quicheMarker then none
  else
    let t := token.drop 6
    let addr := src.ip.octets
    if t.length < addr.length ∨ t.take addr.length ≠ addr then none
    else some (t.drop addr.length)

/-- Two IP addresses are of the same address family when both are IPv4 or
both are IPv6. -/
def IpAddr.sameFamily : IpAddr → IpAddr → Prop
  | .v4 _ _ _ _, .v4 _ _ _ _ => True
  | .v6 _ _ _ _ _ _ _ _ _ _ _ _ _ _ _ _,
    .v6 _ _ _ _ _ _ _ _ _ _ _ _ _ _ _ _ => True
  | _, _ => False

instance : DecidablePred (fun p : IpAddr × IpAddr => p.1.sameFamily p.2) := by
  intro p
  obtain ⟨a, b⟩ := p
  cases a <;> cases b <;> simp [IpAddr.sameFamily] <;> infer_instance

/-- `quiche::MAX_CONN_ID_LEN`, the protocol-defined maximum connection ID
length (20 for QUIC v1); the server's `scid` buffer is a fixed array of this
length, and the derived connection ID is truncated to it. -/
def MAX_CONN_ID_LEN : Nat := 20

/-- `quiche::Type`: the QUIC packet types distinguished by the parsed
header. -/
inductive PacketType where
  | initial | retry | handshake | zeroRTT | versionNegotiation | short
  deriving DecidableEq, Repr

/-- The fields of `quiche::Header` that the dispatch loop reads: packet type,
version, destination and source connection IDs, and the optional address
validation token. -/
structure Header where
  ty : PacketType
  version : Nat
  dcid : List Nat
  scid : List Nat
  token : Option (List Nat)
  deriving DecidableEq, Repr

/-- A datagram synthesized by the bootstrap path: either a version
negotiation packet (`quiche::negotiate_version(&hdr.scid, &hdr.dcid, ..)`) or
a retry packet (`quiche::retry(&hdr.scid, &hdr.dcid, &new_scid, &token,
version, ..)`). -/
inductive Datagram where
  | versionNego (scid dcid : List Nat)
  | retryPkt (scid dcid newScid token : List Nat) (version : Nat)
  deriving DecidableEq, Repr

/-- The decision taken by the demultiplexer for one inbound datagram whose
header parsed: drop it, send one synthesized datagram back, create a new
connection (`quiche::accept(&scid, odcid, from, ..)` then
`clients.insert(scid, ..)` under the same `scid`), or route to an existing
record. `crash` marks the `hdr.token.unwrap()` panic on an Initial header
with no token field, which the header parser never produces. -/
inductive DemuxResult where
  | drop
  | send (d : Datagram) (dst : SocketAddr)
  | newConn (scid : List Nat) (odcid : Option (List Nat))
  | existing (key : List Nat)
  | crash
  deriving DecidableEq, Repr

/-- The demultiplexer / handshake bootstrap decision, transcribed from the
body of the read loop (lines 232–372). `table` is the set of keys of
`clients`; `connId` is the derived CID: the keyed hash of `hdr.dcid`
truncated to `MAX_CONN_ID_LEN` (the hash itself is external, so the derived
CID is a parameter); `supported` is `quiche::version_is_supported`;
`noRetry` is `args.no_retry`. -/
def demux (noRetry : Bool) (supported : Nat → Bool) (table : List (List Nat))
    (connId : List Nat) (hdr : Header) (src : SocketAddr) : DemuxResult :=
  if hdr.dcid ∉ table ∧ connId ∉ table then
    if hdr.ty ≠ .initial then .drop
    else if ¬ supported hdr.version then
      .send (.versionNego hdr.scid hdr.dcid) src
    else if ¬ noRetry then
      match hdr.token with
      | none => .crash
      | some token =>
        if token = [] then
          .send (.retryPkt hdr.scid hdr.dcid connId
                   (mint_token hdr.dcid src) hdr.version) src
        else
          match validate_token src token with
          | none => .drop
          | some odcid =>
            if MAX_CONN_ID_LEN ≠ hdr.dcid.length then .drop
            else .newConn hdr.dcid (some odcid)
    else .newConn connId none
  else .existing (if hdr.dcid ∈ table then hdr.dcid else connId)

/-- Effect of a demultiplexer decision on the connection table's key set:
only `newConn` inserts a key; everything else leaves the table unchanged. -/
def demuxTable (r : DemuxResult) (table : List (List Nat)) : List (List Nat) :=
  match r with
  | .newConn key _ => key :: table
  | _ => table

/-- The datagrams transmitted back to the network by a demultiplexer
decision: one synthesized packet for `send`, none otherwise. -/
def demuxSends (r : DemuxResult) : List (Datagram × SocketAddr) :=
  match r with
  | .send d dst => [(d, dst)]
  | _ => []

/-- `MAX_BUF_SIZE`: size of the shared receive/send buffers. -/
def MAX_BUF_SIZE : Nat := 65536

/-- `MAX_DATAGRAM_SIZE`: the initial maximum datagram size. -/
def MAX_DATAGRAM_SIZE : Nat := 1350

/-- `MAX_SEND_BURST_PACKETS`: the fixed packet-count multiplier of the burst
ceiling. -/
def MAX_SEND_BURST_PACKETS : Nat := 10

/-- A snapshot of the transport-engine handle's observable state, as read by
the dispatch loop: `quiche::Connection::{is_closed, is_established,
is_in_early_data, application_proto, max_send_udp_payload_size}`. -/
structure Engine where
  isClosed : Bool
  isEstablished : Bool
  isInEarlyData : Bool
  applicationProto : String
  maxSendUdpPayloadSize : Nat
  deriving DecidableEq, Repr

/-- The variant held in `http_conn`: an `Http09Conn` or an `Http3Conn`. -/
inductive HttpVariant where
  | http09 | http3
  deriving DecidableEq, Repr

/-- The `Client` record (minus the partial request/response maps, which no
claim touches): the engine handle, the application-session slots, the
selection flag and the send-flow bookkeeping. `siduckConn` models the
presence of the `Option<SiDuckConn>` slot. -/
structure Client where
  conn : Engine
  httpConn : Option HttpVariant
  siduckConn : Bool
  appProtoSelected : Bool
  bytesSent : Nat
  maxDatagramSize : Nat
  maxSendBurst : Nat
  deriving DecidableEq, Repr

/-- Construction of a new `Client` at connection creation (lines 348–361):
no sessions, selection flag false, zero bytes sent, and the burst ceiling
`min(MAX_BUF_SIZE, max_datagram_size * MAX_SEND_BURST_PACKETS)`. -/
def initClient (conn : Engine) (maxDatagramSize : Nat) : Client :=
  { conn := conn
    httpConn := none
    siduckConn := false
    appProtoSelected := false
    bytesSent := 0
    maxDatagramSize := maxDatagramSize
    maxSendBurst := min MAX_BUF_SIZE (maxDatagramSize * MAX_SEND_BURST_PACKETS) }

/-- The application-protocol selection step run after every successful
`conn.recv` (lines 390–442): when no session is selected yet and the engine
is in early data or established, match the negotiated protocol name against
the `alpns::HTTP_09`, `alpns::HTTP_3` and `alpns::SIDUCK` name sets (external
constant lists, hence parameters), create the matching session variant, and
recompute `max_datagram_size` and `max_send_burst` from the engine. -/
def appProtoStep (http09Names http3Names siduckNames : List String)
    (c : Client) : Client :=
  if ¬ c.appProtoSelected ∧ (c.conn.isInEarlyData ∨ c.conn.isEstablished) then
    let appProto := c.conn.applicationProto
    let c1 :=
      if http09Names.contains appProto then
        { c with httpConn := some .http09, appProtoSelected := true }
      else if http3Names.contains appProto then
        { c with httpConn := some .http3, appProtoSelected := true }
      else if siduckNames.contains appProto then
        { c with siduckConn := true, appProtoSelected := true }
      else c
    let mds := c.conn.maxSendUdpPayloadSize
    { c1 with
        maxDatagramSize := mds
        maxSendBurst := min MAX_BUF_SIZE (mds * MAX_SEND_BURST_PACKETS) }
  else c

/-- A connection's lifetime, as seen by the selection step: before each read
iteration the engine handle has evolved to a new observable state, and the
step runs on the updated record. -/
def runDriver (http09Names http3Names siduckNames : List String)
    (obs : List Engine) (c : Client) : Client :=
  match obs with
  | [] => c
  | e :: rest =>
      runDriver http09Names http3Names siduckNames rest
        (appProtoStep http09Names http3Names siduckNames { c with conn := e })

/-- The number of steps along a lifetime at which `appProtoSelected`
transitions from `false` to `true`. -/
def flipCount (http09Names http3Names siduckNames : List String)
    (obs : List Engine) (c : Client) : Nat :=
  match obs with
  | [] => 0
  | e :: rest =>
      let c0 : Client := { c with conn := e }
      let c1 := appProtoStep http09Names http3Names siduckNames c0
      (if ¬ c0.appProtoSelected ∧ c1.appProtoSelected then 1 else 0) +
        flipCount http09Names http3Names siduckNames rest c1

/-- The garbage-collection pass (lines 568–580):
`clients.retain(|_, c| !c.conn.is_closed())`, with the table as an
association list from CID to client record. -/
def gcPhase (table : List (List Nat × Client)) : List (List Nat × Client) :=
  table.filter (fun kv => ! kv.2.conn.isClosed)

/-- The reactor's wait deadline (lines 159–163): zero if some connection's
write phase requested immediate continuation, otherwise the minimum of the
engine-reported timeouts over all connections (`none` when no connection
reports one). Durations are in abstract time units. -/
def computeTimeout (continueWrite : Bool) (timeouts : List (Option Nat)) :
    Option Nat :=
  if continueWrite then some 0
  else (timeouts.filterMap id).min?

/-- One result of `conn.send` on the output buffer: a serialized packet of
`write` bytes together with its destination, `Done` (nothing left to send),
or another error. -/
inductive EngineSend where
  | pkt (write : Nat) (dest : SocketAddr)
  | done
  | err
  deriving DecidableEq, Repr

/-- The outcome of one connection's write phase: the socket transmissions
performed in order (bytes, destination), the final `bytes_sent` counter, the
`continue_write` request, and whether a send error closed the connection. -/
structure WritePhaseResult where
  sends : List (Nat × SocketAddr)
  bytesSent : Nat
  continueWrite : Bool
  closedByError : Bool
  deriving DecidableEq, Repr

/-- One connection's write phase (lines 484–564) in the non-GSO
configuration, where the inner coalescing loop makes exactly one engine call
per transmission: `sendFn k` is the result of the `k`-th `conn.send` call,
`maxSendBurst` the snapshotted ceiling, `bytesSent` the running counter.
Each serialized packet is transmitted, the counter accumulates, and once it
reaches the ceiling it resets to zero and the phase pauses requesting
immediate continuation (`continue_write = true`). -/
def writePhaseGo (maxSendBurst : Nat) (sendFn : Nat → EngineSend) (k : Nat)
    (bytesSent : Nat) : WritePhaseResult :=
  match sendFn k with
  | .done => ⟨[], bytesSent, false, false⟩
  | .err => ⟨[], bytesSent, false, true⟩
  | .pkt write dest =>
      if write = 0 then ⟨[], bytesSent, false, false⟩
      else
        let bs := bytesSent + write
        if maxSendBurst ≤ bs then ⟨[(write, dest)], 0, true, false⟩
        else
          let r := writePhaseGo maxSendBurst sendFn (k + 1) bs
          ⟨(write, dest) :: r.sends, r.bytesSent, r.continueWrite,
            r.closedByError⟩
termination_by maxSendBurst - bytesSent
decreasing_by omega

/-- A connection's full write phase starts at engine call 0 with the
connection's accumulated `bytes_sent` counter. -/
def writePhase (maxSendBurst : Nat) (sendFn : Nat → EngineSend)
    (bytesSent : Nat) : WritePhaseResult :=
  writePhaseGo maxSendBurst sendFn 0 bytesSent

lemma octets_length_eq_of_sameFamily {a b : IpAddr} (h : a.sameFamily b) :
    a.octets.length = b.octets.length := by
  cases a <;> cases b <;> simp_all [IpAddr.sameFamily, IpAddr.octets]

lemma validate_mint_roundtrip (dcid : List Nat) (src : SocketAddr) :
    validate_token src (mint_token dcid src) = some dcid := by
  unfold validate_token mint_token
  have hm : quicheMarker.length = 6 := by rfl
  have hl : (quicheMarker ++ src.ip.octets ++ dcid).length =
      6 + (src.ip.octets.length + dcid.length) := by
    simp [hm, List.length_append, Nat.add_assoc]
  rw [List.append_assoc]
  have htake : (quicheMarker ++ (src.ip.octets ++ dcid)).take 6 = quicheMarker := by
    rw [← hm, List.take_left]
  have hdrop : (quicheMarker ++ (src.ip.octets ++ dcid)).drop 6 =
      src.ip.octets ++ dcid := by
    rw [← hm, List.drop_left]
  simp only [htake, hdrop, List.length_append, hm]
  rw [if_neg (by omega), if_neg (by simp)]
  rw [if_neg ?_]
  · rw [List.drop_left]
  · rw [List.take_left]
    simp

lemma validate_mint_other_addr (dcid : List Nat) (src other : SocketAddr)
    (hfam : src.ip.sameFamily other.ip)
    (hneq : src.ip.octets ≠ other.ip.octets) :
    validate_token other (mint_token dcid src) = none := by
  unfold validate_token mint_token
  have hm : quicheMarker.length = 6 := by rfl
  rw [List.append_assoc]
  have htake : (quicheMarker ++ (src.ip.octets ++ dcid)).take 6 = quicheMarker := by
    rw [← hm, List.take_left]
  have hdrop : (quicheMarker ++ (src.ip.octets ++ dcid)).drop 6 =
      src.ip.octets ++ dcid := by
    rw [← hm, List.drop_left]
  simp only [htake, hdrop, List.length_append, hm]
  rw [if_neg (by omega)]
  rw [if_neg (by simp)]
  have hlen := octets_length_eq_of_sameFamily hfam
  have hcond : src.ip.octets.length + dcid.length < other.ip.octets.length ∨
      (src.ip.octets ++ dcid).take other.ip.octets.length ≠ other.ip.octets := by
    right
    rw [← hlen, List.take_left]
    exact hneq
  rw [if_pos hcond]

lemma writePhaseGo_const (B D : Nat) (dest : SocketAddr) (hD : 0 < D) :
    ∀ n k bytesSent, B - bytesSent ≤ n → bytesSent < B →
      writePhaseGo B (fun _ => .pkt D dest) k bytesSent =
        ⟨List.replicate ((B - bytesSent + D - 1) / D) (D, dest), 0, true,
          false⟩ := by
  intro n
  induction n with
  | zero => intro k bs h1 h2; omega
  | succ n ih =>
    intro k bs h1 h2
    rw [writePhaseGo]
    simp only
    rw [if_neg (by omega)]
    by_cases hB : B ≤ bs + D
    · rw [if_pos hB]
      have hq : (B - bs + D - 1) / D = 1 := by
        have hlo : 1 * D ≤ B - bs + D - 1 := by omega
        have hhi : B - bs + D - 1 < (1 + 1) * D := by omega
        exact Nat.div_eq_of_lt_le hlo hhi
      rw [hq]
      rfl
    · rw [if_neg hB]
      have hrec := ih (k + 1) (bs + D) (by omega) (by omega)
      rw [hrec]
      have hq : (B - bs + D - 1) / D = (B - (bs + D) + D - 1) / D + 1 := by
        have hsplit : B - bs + D - 1 = (B - (bs + D) + D - 1) + D := by omega
        rw [hsplit, Nat.add_div_right _ hD]
      rw [hq, List.replicate_succ]

lemma appProtoStep_of_selected (h09 h3 sd : List String) (c : Client)
    (h : c.appProtoSelected = true) :
    appProtoStep h09 h3 sd c = c := by
  unfold appProtoStep
  rw [if_neg (by simp [h])]

lemma appProtoStep_selected_mono (h09 h3 sd : List String) (c : Client)
    (h : c.appProtoSelected = true) :
    (appProtoStep h09 h3 sd c).appProtoSelected = true := by
  rw [appProtoStep_of_selected h09 h3 sd c h]
  exact h

lemma flipCount_of_selected (h09 h3 sd : List String) (obs : List Engine) :
    ∀ c : Client, c.appProtoSelected = true →
      flipCount h09 h3 sd obs c = 0 := by
  induction obs with
  | nil => intro c h; rfl
  | cons e rest ih =>
    intro c h
    unfold flipCount
    simp only
    have h0 : (Client.mk e c.httpConn c.siduckConn c.appProtoSelected
        c.bytesSent c.maxDatagramSize c.maxSendBurst).appProtoSelected =
        true := h
    rw [if_neg (by simp [h]), ih _ (appProtoStep_selected_mono _ _ _ _ h0)]

lemma flipCount_le_one (h09 h3 sd : List String) (obs : List Engine) :
    ∀ c : Client, flipCount h09 h3 sd obs c ≤ 1 := by
  induction obs with
  | nil => intro c; simp [flipCount]
  | cons e rest ih =>
    intro c
    unfold flipCount
    simp only
    by_cases hsel :
        (appProtoStep h09 h3 sd { c with conn := e }).appProtoSelected = true
    · rw [flipCount_of_selected h09 h3 sd rest _ hsel]
      split <;> omega
    · rw [if_neg (by simp [hsel])]
      have := ih (appProtoStep h09 h3 sd { c with conn := e })
      omega

/-- C1, counterexample to the claim as stated: `validate_token` compares only
the IP octets embedded in the token, never the port, so a token minted for
`addr` still validates (returns the CID, not the `none` sentinel) from an
`addr'` that differs from `addr` only in port; and a token minted for an IPv6
address whose first four octets read as an IPv4 address also validates from
that IPv4 address, because the embedded-address comparison uses the
validating address's own octet width. -/
theorem token_binding_counterexample :
    ((⟨.v4 1 2 3 4, 2222⟩ : SocketAddr) ≠ ⟨.v4 1 2 3 4, 1111⟩ ∧
      validate_token ⟨.v4 1 2 3 4, 2222⟩
        (mint_token [7] ⟨.v4 1 2 3 4, 1111⟩) = some [7]) ∧
    ((⟨.v4 1 2 3 4, 1111⟩ : SocketAddr) ≠
        ⟨.v6 1 2 3 4 0 0 0 0 0 0 0 0 0 0 0 0, 1111⟩ ∧
      validate_token ⟨.v4 1 2 3 4, 1111⟩
        (mint_token [7] ⟨.v6 1 2 3 4 0 0 0 0 0 0 0 0 0 0 0 0, 1111⟩) =
        some [0, 0, 0, 0, 0, 0, 0, 0, 0, 0, 0, 0, 7]) := by
  decide

/-- C1 (amended): for every connection ID `cid` and client address `addr`,
`validate_token(addr, mint_token(cid, addr))` returns `cid`; and for every
address `addr'` of the same address family as `addr` whose IP octets differ
from `addr`'s, `validate_token(addr', t)` on a token `t` minted for `addr`
returns the no-match sentinel `none`. -/
theorem token_roundtrip_and_binding :
    (∀ (cid : List Nat) (addr : SocketAddr),
        validate_token addr (mint_token cid addr) = some cid) ∧
    (∀ (cid : List Nat) (addr addr' : SocketAddr),
        addr.ip.sameFamily addr'.ip → addr.ip.octets ≠ addr'.ip.octets →
        validate_token addr' (mint_token cid addr) = none) :=
  ⟨fun cid addr => validate_mint_roundtrip cid addr,
   fun cid addr addr' hfam hneq =>
     validate_mint_other_addr cid addr addr' hfam hneq⟩

/-- Concrete instance of `token_roundtrip_and_binding`. -/
theorem token_roundtrip_and_binding_witness :
    validate_token ⟨.v4 10 0 0 1, 443⟩
      (mint_token [9, 8] ⟨.v4 10 0 0 1, 443⟩) = some [9, 8] ∧
    validate_token ⟨.v4 10 0 0 2, 443⟩
      (mint_token [9, 8] ⟨.v4 10 0 0 1, 443⟩) = none :=
  ⟨token_roundtrip_and_binding.1 [9, 8] ⟨.v4 10 0 0 1, 443⟩,
   token_roundtrip_and_binding.2 [9, 8] ⟨.v4 10 0 0 1, 443⟩
     ⟨.v4 10 0 0 2, 443⟩ trivial (by decide)⟩

/-- C2: with a burst ceiling of `B` bytes and an engine whose every `send`
serializes a full-size datagram of `D` bytes, a connection's write phase
performs exactly `⌈B / D⌉` socket transmissions (each of `D` bytes to the
reported destination), then pauses with `continue_write` set, and the
reactor's next wait deadline is then zero rather than the minimum connection
timeout. -/
theorem burst_transmitter_ceil_count (B D : Nat) (dest : SocketAddr)
    (timeouts : List (Option Nat)) (hD : 0 < D) (hDB : D ≤ B) :
    writePhase B (fun _ => .pkt D dest) 0 =
      ⟨List.replicate ((B + D - 1) / D) (D, dest), 0, true, false⟩ ∧
    (writePhase B (fun _ => .pkt D dest) 0).sends.length = (B + D - 1) / D ∧
    computeTimeout true timeouts = some 0 := by
  have h := writePhaseGo_const B D dest hD B 0 0 (by omega) (by omega)
  unfold writePhase
  rw [Nat.sub_zero] at h
  refine ⟨h, ?_, ?_⟩
  · rw [h]
    simp
  · simp [computeTimeout]

/-- Concrete instance of `burst_transmitter_ceil_count`: ceiling 10, datagram
size 3, `⌈10 / 3⌉ = 4` transmissions. -/
theorem burst_transmitter_ceil_count_witness :
    writePhase 10 (fun _ => .pkt 3 ⟨.v4 9 9 9 9, 1⟩) 0 =
      ⟨List.replicate 4 (3, ⟨.v4 9 9 9 9, 1⟩), 0, true, false⟩ ∧
    (writePhase 10 (fun _ => .pkt 3 ⟨.v4 9 9 9 9, 1⟩) 0).sends.length = 4 ∧
    computeTimeout true [some 5, none] = some 0 :=
  burst_transmitter_ceil_count 10 3 ⟨.v4 9 9 9 9, 1⟩ [some 5, none]
    (by decide) (by decide)

/-- C3: with address validation enabled (`no_retry` false), an Initial packet
of a supported version whose destination CID and derived CID are both absent
from the connection table and whose token is empty makes the server send
exactly one Retry datagram back to the sender — carrying a freshly minted
token and the derived CID as the new source CID — and leaves the connection
table unchanged. -/
theorem stateless_retry_on_empty_token (supported : Nat → Bool)
    (table : List (List Nat)) (connId : List Nat) (hdr : Header)
    (src : SocketAddr)
    (h1 : hdr.dcid ∉ table) (h2 : connId ∉ table)
    (h3 : hdr.ty = .initial) (h4 : supported hdr.version = true)
    (h5 : hdr.token = some []) :
    demuxSends (demux false supported table connId hdr src) =
      [(.retryPkt hdr.scid hdr.dcid connId (mint_token hdr.dcid src)
          hdr.version, src)] ∧
    demuxTable (demux false supported table connId hdr src) table = table := by
  unfold demux
  rw [if_pos ⟨h1, h2⟩, if_neg (by simp [h3]), if_neg (by simp [h4]),
    if_pos (by simp), h5]
  simp [demuxSends, demuxTable]

/-- Concrete instance of `stateless_retry_on_empty_token`. -/
theorem stateless_retry_on_empty_token_witness :
    demuxSends (demux false (fun _ => true) [] [5]
        ⟨.initial, 1, [2], [3], some []⟩ ⟨.v4 1 2 3 4, 9⟩) =
      [(.retryPkt [3] [2] [5]
          (mint_token [2] ⟨.v4 1 2 3 4, 9⟩) 1, ⟨.v4 1 2 3 4, 9⟩)] ∧
    demuxTable (demux false (fun _ => true) [] [5]
        ⟨.initial, 1, [2], [3], some []⟩ ⟨.v4 1 2 3 4, 9⟩) [] = [] :=
  stateless_retry_on_empty_token (fun _ => true) [] [5]
    ⟨.initial, 1, [2], [3], some []⟩ ⟨.v4 1 2 3 4, 9⟩
    (by decide) (by decide) rfl rfl rfl

/-- C4: a datagram whose destination CID and derived CID are both absent from
the connection table and whose packet type is not Initial is dropped: no
response datagram is sent and no connection-table entry is created, whatever
the retry policy or version. -/
theorem drop_non_initial_unknown_cid (noRetry : Bool)
    (supported : Nat → Bool) (table : List (List Nat)) (connId : List Nat)
    (hdr : Header) (src : SocketAddr)
    (h1 : hdr.dcid ∉ table) (h2 : connId ∉ table)
    (h3 : hdr.ty ≠ .initial) :
    demux noRetry supported table connId hdr src = .drop ∧
    demuxSends (demux noRetry supported table connId hdr src) = [] ∧
    demuxTable (demux noRetry supported table connId hdr src) table =
      table := by
  unfold demux
  rw [if_pos ⟨h1, h2⟩, if_pos h3]
  simp [demuxSends, demuxTable]

/-- Concrete instance of `drop_non_initial_unknown_cid`. -/
theorem drop_non_initial_unknown_cid_witness :
    demux false (fun _ => true) [] [5] ⟨.short, 1, [2], [3], none⟩
      ⟨.v4 1 2 3 4, 9⟩ = .drop ∧
    demuxSends (demux false (fun _ => true) [] [5]
      ⟨.short, 1, [2], [3], none⟩ ⟨.v4 1 2 3 4, 9⟩) = [] ∧
    demuxTable (demux false (fun _ => true) [] [5]
      ⟨.short, 1, [2], [3], none⟩ ⟨.v4 1 2 3 4, 9⟩) [] = [] :=
  drop_non_initial_unknown_cid false (fun _ => true) [] [5]
    ⟨.short, 1, [2], [3], none⟩ ⟨.v4 1 2 3 4, 9⟩
    (by decide) (by decide) (by decide)

/-- C5: with address validation enabled, an Initial packet of a supported
version for unknown CIDs whose non-empty token fails validation is dropped:
no response datagram is sent and no connection record is created. -/
theorem drop_invalid_token_no_response (supported : Nat → Bool)
    (table : List (List Nat)) (connId : List Nat) (hdr : Header)
    (src : SocketAddr) (token : List Nat)
    (h1 : hdr.dcid ∉ table) (h2 : connId ∉ table)
    (h3 : hdr.ty = .initial) (h4 : supported hdr.version = true)
    (h5 : hdr.token = some token) (h6 : token ≠ [])
    (h7 : validate_token src token = none) :
    demux false supported table connId hdr src = .drop ∧
    demuxSends (demux false supported table connId hdr src) = [] ∧
    demuxTable (demux false supported table connId hdr src) table =
      table := by
  unfold demux
  rw [if_pos ⟨h1, h2⟩, if_neg (by simp [h3]), if_neg (by simp [h4]),
    if_pos (by simp), h5]
  simp only [if_neg h6, h7]
  simp [demuxSends, demuxTable]

/-- Concrete instance of `drop_invalid_token_no_response`: a token with a
wrong marker. -/
theorem drop_invalid_token_no_response_witness :
    demux false (fun _ => true) [] [5]
      ⟨.initial, 1, [2], [3], some [0, 0, 0, 0, 0, 0]⟩ ⟨.v4 1 2 3 4, 9⟩ =
      .drop ∧
    demuxSends (demux false (fun _ => true) [] [5]
      ⟨.initial, 1, [2], [3], some [0, 0, 0, 0, 0, 0]⟩
      ⟨.v4 1 2 3 4, 9⟩) = [] ∧
    demuxTable (demux false (fun _ => true) [] [5]
      ⟨.initial, 1, [2], [3], some [0, 0, 0, 0, 0, 0]⟩
      ⟨.v4 1 2 3 4, 9⟩) [] = [] :=
  drop_invalid_token_no_response (fun _ => true) [] [5]
    ⟨.initial, 1, [2], [3], some [0, 0, 0, 0, 0, 0]⟩ ⟨.v4 1 2 3 4, 9⟩
    [0, 0, 0, 0, 0, 0] (by decide) (by decide) rfl rfl rfl (by decide)
    (by decide)

/-- C6: when a new connection is created after a successful token validation,
the server-chosen CID — the key under which the record is inserted and the
CID passed to `quiche::accept` — is the client's current destination CID
`hdr.dcid` (the one echoed back in the Retry), not the freshly derived
`connId`, and the validated token's embedded CID is passed as the original
destination CID. -/
theorem scid_reuse_after_validation (supported : Nat → Bool)
    (table : List (List Nat)) (connId : List Nat) (hdr : Header)
    (src : SocketAddr) (token odcid : List Nat)
    (h1 : hdr.dcid ∉ table) (h2 : connId ∉ table)
    (h3 : hdr.ty = .initial) (h4 : supported hdr.version = true)
    (h5 : hdr.token = some token) (h6 : token ≠ [])
    (h7 : validate_token src token = some odcid)
    (h8 : hdr.dcid.length = MAX_CONN_ID_LEN) :
    demux false supported table connId hdr src =
      .newConn hdr.dcid (some odcid) ∧
    demuxTable (demux false supported table connId hdr src) table =
      hdr.dcid :: table := by
  unfold demux
  rw [if_pos ⟨h1, h2⟩, if_neg (by simp [h3]), if_neg (by simp [h4]),
    if_pos (by simp), h5]
  simp only [if_neg h6, h7]
  rw [if_neg (by omega)]
  simp [demuxTable]

/-- Concrete instance of `scid_reuse_after_validation`: the client's
destination CID is 20 bytes long and the token embeds CID `[7]`. -/
theorem scid_reuse_after_validation_witness :
    demux false (fun _ => true) [] [5]
      ⟨.initial, 1, List.replicate 20 2, [3],
        some (mint_token [7] ⟨.v4 1 2 3 4, 9⟩)⟩ ⟨.v4 1 2 3 4, 9⟩ =
      .newConn (List.replicate 20 2) (some [7]) ∧
    demuxTable (demux false (fun _ => true) [] [5]
      ⟨.initial, 1, List.replicate 20 2, [3],
        some (mint_token [7] ⟨.v4 1 2 3 4, 9⟩)⟩ ⟨.v4 1 2 3 4, 9⟩) [] =
      [List.replicate 20 2] :=
  scid_reuse_after_validation (fun _ => true) [] [5]
    ⟨.initial, 1, List.replicate 20 2, [3],
      some (mint_token [7] ⟨.v4 1 2 3 4, 9⟩)⟩ ⟨.v4 1 2 3 4, 9⟩
    (mint_token [7] ⟨.v4 1 2 3 4, 9⟩) [7] (by decide) (by decide) rfl rfl
    rfl (by decide) (by decide) (by decide)

/-- C10: on the address-validation path, even after the token validates, the
new connection is only created when the client's destination CID has exactly
the protocol's maximum CID length; any other length makes the datagram be
dropped with no response and no connection record. -/
theorem drop_wrong_dcid_length_after_validation (supported : Nat → Bool)
    (table : List (List Nat)) (connId : List Nat) (hdr : Header)
    (src : SocketAddr) (token odcid : List Nat)
    (h1 : hdr.dcid ∉ table) (h2 : connId ∉ table)
    (h3 : hdr.ty = .initial) (h4 : supported hdr.version = true)
    (h5 : hdr.token = some token) (h6 : token ≠ [])
    (h7 : validate_token src token = some odcid)
    (h8 : hdr.dcid.length ≠ MAX_CONN_ID_LEN) :
    demux false supported table connId hdr src = .drop ∧
    demuxSends (demux false supported table connId hdr src) = [] ∧
    demuxTable (demux false supported table connId hdr src) table =
      table := by
  unfold demux
  rw [if_pos ⟨h1, h2⟩, if_neg (by simp [h3]), if_neg (by simp [h4]),
    if_pos (by simp), h5]
  simp only [if_neg h6, h7]
  rw [if_pos (by omega)]
  simp [demuxSends, demuxTable]

/-- Concrete instance of `drop_wrong_dcid_length_after_validation`: a
validated token but a 1-byte destination CID. -/
theorem drop_wrong_dcid_length_after_validation_witness :
    demux false (fun _ => true) [] [5]
      ⟨.initial, 1, [2], [3], some (mint_token [7] ⟨.v4 1 2 3 4, 9⟩)⟩
      ⟨.v4 1 2 3 4, 9⟩ = .drop ∧
    demuxSends (demux false (fun _ => true) [] [5]
      ⟨.initial, 1, [2], [3], some (mint_token [7] ⟨.v4 1 2 3 4, 9⟩)⟩
      ⟨.v4 1 2 3 4, 9⟩) = [] ∧
    demuxTable (demux false (fun _ => true) [] [5]
      ⟨.initial, 1, [2], [3], some (mint_token [7] ⟨.v4 1 2 3 4, 9⟩)⟩
      ⟨.v4 1 2 3 4, 9⟩) [] = [] :=
  drop_wrong_dcid_length_after_validation (fun _ => true) [] [5]
    ⟨.initial, 1, [2], [3], some (mint_token [7] ⟨.v4 1 2 3 4, 9⟩)⟩
    ⟨.v4 1 2 3 4, 9⟩ (mint_token [7] ⟨.v4 1 2 3 4, 9⟩) [7] (by decide)
    (by decide) rfl rfl rfl (by decide) (by decide) (by decide)

/-- C7: a connection's burst ceiling always equals
`min(MAX_BUF_SIZE, max_datagram_size * MAX_SEND_BURST_PACKETS)`: it is set to
that value at connection creation, it is recomputed from the engine-reported
maximum payload size at the application-session selection point (handshake
established or early data), and the equality with the record's current
`max_datagram_size` is preserved by the selection step. -/
theorem burst_ceiling_formula :
    (∀ (e : Engine) (mds : Nat),
        (initClient e mds).maxSendBurst =
          min MAX_BUF_SIZE (mds * MAX_SEND_BURST_PACKETS)) ∧
    (∀ (h09 h3 sd : List String) (c : Client),
        c.appProtoSelected = false →
        (c.conn.isInEarlyData = true ∨ c.conn.isEstablished = true) →
        (appProtoStep h09 h3 sd c).maxDatagramSize =
            c.conn.maxSendUdpPayloadSize ∧
        (appProtoStep h09 h3 sd c).maxSendBurst =
          min MAX_BUF_SIZE
            ((appProtoStep h09 h3 sd c).maxDatagramSize *
              MAX_SEND_BURST_PACKETS)) ∧
    (∀ (h09 h3 sd : List String) (c : Client),
        c.maxSendBurst =
          min MAX_BUF_SIZE (c.maxDatagramSize * MAX_SEND_BURST_PACKETS) →
        (appProtoStep h09 h3 sd c).maxSendBurst =
          min MAX_BUF_SIZE
            ((appProtoStep h09 h3 sd c).maxDatagramSize *
              MAX_SEND_BURST_PACKETS)) := by
  refine ⟨fun e mds => rfl, fun h09 h3 sd c hsel hready => ?_,
    fun h09 h3 sd c hinv => ?_⟩
  · unfold appProtoStep
    rw [if_pos ⟨by simp [hsel], hready⟩]
    exact ⟨rfl, rfl⟩
  · unfold appProtoStep
    by_cases hg : ¬ c.appProtoSelected = true ∧
        (c.conn.isInEarlyData = true ∨ c.conn.isEstablished = true)
    · rw [if_pos hg]
    · rw [if_neg hg]
      exact hinv

/-- Concrete instance of `burst_ceiling_formula`. -/
theorem burst_ceiling_formula_witness :
    (initClient ⟨false, true, false, "x", 1200⟩ 1350).maxSendBurst =
      min MAX_BUF_SIZE (1350 * MAX_SEND_BURST_PACKETS) ∧
    (appProtoStep [] [] []
        (initClient ⟨false, true, false, "x", 1200⟩ 1350)).maxSendBurst =
      min MAX_BUF_SIZE
        ((appProtoStep [] [] []
            (initClient ⟨false, true, false, "x", 1200⟩ 1350)).maxDatagramSize *
          MAX_SEND_BURST_PACKETS) :=
  ⟨burst_ceiling_formula.1 ⟨false, true, false, "x", 1200⟩ 1350,
   (burst_ceiling_formula.2.1 [] [] []
      (initClient ⟨false, true, false, "x", 1200⟩ 1350) rfl (Or.inr rfl)).2⟩

/-- C8: in any single GC-Phase, a record survives the pass exactly when its
engine does not report closed state — so every closed connection is removed,
no open one is, and the pass commutes with any reordering of the table. -/
theorem gc_removes_exactly_closed :
    (∀ (table : List (List Nat × Client)) (kv : List Nat × Client),
        kv ∈ gcPhase table ↔ kv ∈ table ∧ kv.2.conn.isClosed = false) ∧
    (∀ t t' : List (List Nat × Client), t.Perm t' →
        (gcPhase t).Perm (gcPhase t')) := by
  constructor
  · intro table kv
    simp [gcPhase, List.mem_filter]
  · intro t t' h
    exact h.filter _

/-- Concrete instance of `gc_removes_exactly_closed`. -/
theorem gc_removes_exactly_closed_witness :
    (gcPhase [([3], initClient ⟨false, false, false, "x", 1350⟩ 1350)]).Perm
      (gcPhase [([3], initClient ⟨false, false, false, "x", 1350⟩ 1350)]) :=
  gc_removes_exactly_closed.2 _ _ (List.Perm.refl _)

/-- C9: once `app_proto_selected` is true the selection step is the identity;
at the transition from false to true exactly one application session is
created, of the variant whose name set contains the negotiated protocol name
(exact, case-sensitive membership, HTTP/0.9 first, then HTTP/3, then
siduck); when no set contains the name, no session is created and the flag
stays false; and along any lifetime the flag flips from false to true at
most once. -/
theorem app_proto_selection_unique (h09 h3 sd : List String) :
    (∀ c : Client, c.appProtoSelected = true →
        appProtoStep h09 h3 sd c = c) ∧
    (∀ c : Client, c.appProtoSelected = false →
        (c.conn.isInEarlyData = true ∨ c.conn.isEstablished = true) →
        c.httpConn = none → c.siduckConn = false →
        ((c.conn.applicationProto ∈ h09 →
            (appProtoStep h09 h3 sd c).appProtoSelected = true ∧
            (appProtoStep h09 h3 sd c).httpConn = some .http09 ∧
            (appProtoStep h09 h3 sd c).siduckConn = false) ∧
         (c.conn.applicationProto ∉ h09 → c.conn.applicationProto ∈ h3 →
            (appProtoStep h09 h3 sd c).appProtoSelected = true ∧
            (appProtoStep h09 h3 sd c).httpConn = some .http3 ∧
            (appProtoStep h09 h3 sd c).siduckConn = false) ∧
         (c.conn.applicationProto ∉ h09 → c.conn.applicationProto ∉ h3 →
          c.conn.applicationProto ∈ sd →
            (appProtoStep h09 h3 sd c).appProtoSelected = true ∧
            (appProtoStep h09 h3 sd c).httpConn = none ∧
            (appProtoStep h09 h3 sd c).siduckConn = true) ∧
         (c.conn.applicationProto ∉ h09 → c.conn.applicationProto ∉ h3 →
          c.conn.applicationProto ∉ sd →
            (appProtoStep h09 h3 sd c).appProtoSelected = false ∧
            (appProtoStep h09 h3 sd c).httpConn = none ∧
            (appProtoStep h09 h3 sd c).siduckConn = false))) ∧
    (∀ (obs : List Engine) (c : Client),
        flipCount h09 h3 sd obs c ≤ 1) := by
  refine ⟨appProtoStep_of_selected h09 h3 sd, ?_,
    fun obs c => flipCount_le_one h09 h3 sd obs c⟩
  intro c hsel hready hhttp hsiduck
  unfold appProtoStep
  rw [if_pos ⟨by simp [hsel], hready⟩]
  refine ⟨fun ha => ?_, fun ha hb => ?_, fun ha hb hc => ?_,
    fun ha hb hc => ?_⟩
  · simp [ha, hsiduck]
  · simp [ha, hb, hsiduck]
  · simp [ha, hb, hc, hhttp]
  · simp [ha, hb, hc, hsel, hhttp, hsiduck]

/-- Concrete instance of `app_proto_selection_unique`: the negotiated name
`h3` selects the HTTP/3 variant, and a one-step lifetime flips the flag at
most once. -/
theorem app_proto_selection_unique_witness :
    (appProtoStep ["http/0.9"] ["h3"] ["siduck"]
        (initClient ⟨false, true, false, "h3", 1200⟩ 1350)).appProtoSelected =
      true ∧
    (appProtoStep ["http/0.9"] ["h3"] ["siduck"]
        (initClient ⟨false, true, false, "h3", 1200⟩ 1350)).httpConn =
      some .http3 ∧
    (appProtoStep ["http/0.9"] ["h3"] ["siduck"]
        (initClient ⟨false, true, false, "h3", 1200⟩ 1350)).siduckConn =
      false ∧
    flipCount ["http/0.9"] ["h3"] ["siduck"]
      [⟨false, true, false, "h3", 1200⟩]
      (initClient ⟨false, true, false, "h3", 1200⟩ 1350) ≤ 1 := by
  have h := (app_proto_selection_unique ["http/0.9"] ["h3"] ["siduck"]).2.1
    (initClient ⟨false, true, false, "h3", 1200⟩ 1350) rfl (Or.inr rfl)
    rfl rfl
  have h2 := h.2.1 (by decide) (by decide)
  exact ⟨h2.1, h2.2.1, h2.2.2,
    (app_proto_selection_unique ["http/0.9"] ["h3"] ["siduck"]).2.2
      [⟨false, true, false, "h3", 1200⟩]
      (initClient ⟨false, true, false, "h3", 1200⟩ 1350)⟩

end QuicheServer
